import Mathlib

/-!
Verification development for the per-session chat routing engine
(worker/src/ChatSession.ts).

The embedding models the JavaScript values flowing through the message
handler: parsed JSON payloads, property access (which throws a TypeError
on a null or undefined base), JS truthiness, and the template-literal
string coercion used in error messages.  The three backend adapters are
modelled with their try/catch structure over an oracle environment that
fixes the outcome of each outbound provider call.
-/

/-- Values produced by JSON.parse: the JSON data model. -/
inductive Json where
  | null : Json
  | bool : Bool → Json
  | num : Int → Json
  | str : String → Json
  | arr : List Json → Json
  | obj : List (String × Json) → Json

/-- A JavaScript value position that may be undefined: none is undefined. -/
abbrev JsValue := Option Json

/-- Field lookup on an object literal; a later duplicate key overwrites an
earlier one, as in JSON.parse. -/
def lookupField (fs : List (String × Json)) (k : String) : JsValue :=
  match fs.reverse.find? (fun p => p.1 == k) with
  | some p => some p.2
  | none => none

/-- Property access on a JS value: throws a TypeError on a null or undefined
base, yields the field on an object (undefined when absent), and yields
undefined on other primitives. -/
def jsGetField (base : JsValue) (k : String) : Except String JsValue :=
  match base with
  | none =>
      .error ("Cannot read properties of undefined (reading \x27" ++ k ++ "\x27)")
  | some .null =>
      .error ("Cannot read properties of null (reading \x27" ++ k ++ "\x27)")
  | some (.obj fs) => .ok (lookupField fs k)
  | some _ => .ok none

/-- Index access on a JS value: throws on a null or undefined base, yields the
element on an array, a one-character string on a string, else undefined. -/
def jsIndex (base : JsValue) (i : Nat) : Except String JsValue :=
  match base with
  | none =>
      .error ("Cannot read properties of undefined (reading " ++ toString i ++ ")")
  | some .null =>
      .error ("Cannot read properties of null (reading " ++ toString i ++ ")")
  | some (.arr xs) => .ok ((xs[i]?).map (fun x => some x)).join
  | some (.str s) => .ok ((s.data[i]?).map (fun c => Json.str (String.singleton c)))
  | some _ => .ok none

/-- JS truthiness of a parsed JSON value. -/
def Json.truthy : Json → Bool
  | .null => false
  | .bool b => b
  | .num n => n != 0
  | .str s => s != ""
  | .arr _ => true
  | .obj _ => true

/-- JS truthiness of a possibly-undefined value: undefined is falsy. -/
def jsTruthy : JsValue → Bool
  | none => false
  | some j => j.truthy

mutual

/-- String coercion of a JSON value, as a JS template literal performs it. -/
def jsonToString : Json → String
  | .null => "null"
  | .bool b => if b then "true" else "false"
  | .num n => toString n
  | .str s => s
  | .arr xs => jsonArrToString xs
  | .obj _ => "[object Object]"

/-- Array.prototype.toString joins elements with commas. -/
def jsonArrToString : List Json → String
  | [] => ""
  | [x] => jsonElemToString x
  | x :: y :: xs => jsonElemToString x ++ "," ++ jsonArrToString (y :: xs)

/-- Inside a join, a null element renders as the empty string. -/
def jsonElemToString : Json → String
  | .null => ""
  | j => jsonToString j

end

/-- String coercion of a possibly-undefined value. -/
def jsToString : JsValue → String
  | none => "undefined"
  | some j => jsonToString j

/-- One outbound frame written to the WebSocket: the object literal passed to
JSON.stringify in the message listener.  A content of none is the undefined
value, which JSON.stringify omits. -/
structure OutboundResponse where
  id : String
  role : String
  content : JsValue

/-- Outcome of one call to the Workers AI binding: the promise either rejects
or resolves with a JS value. -/
inductive CallResult where
  | throws : String → CallResult
  | returns : JsValue → CallResult

/-- Outcome of one fetch call: a transport-level rejection, or an HTTP
response with a status, a raw body text, and the result of parsing the body
as JSON. -/
inductive FetchOutcome where
  | networkError : String → FetchOutcome
  | httpResponse : Nat → String → Except String Json → FetchOutcome

/-- The field response.ok of a fetch response. -/
def httpOk (status : Nat) : Bool :=
  200 ≤ status && status < 300

/-- Oracle environment fixing the outcome of each outbound provider call as a
function of the prompt value sent. -/
structure BackendEnv where
  cfAI : JsValue → CallResult
  openaiFetch : JsValue → FetchOutcome
  geminiFetch : JsValue → FetchOutcome

/-- One outbound provider call issued by an adapter. -/
inductive ProviderCall where
  | cfRun : JsValue → ProviderCall
  | openaiPost : JsValue → ProviderCall
  | geminiPost : JsValue → ProviderCall

/-- Body of the try block of generateWithCloudflare as a function of the
awaited outcome of the AI.run call: on resolution, read the response field of
the resolved value. -/
def cloudflareTry (outcome : CallResult) : Except String JsValue :=
  match outcome with
  | .throws em => .error em
  | .returns v => jsGetField v "response"

/-- The method generateWithCloudflare: it issues one AI.run call and its
catch replaces any failure with a fixed diagnostic. -/
def generateWithCloudflare (env : BackendEnv) (prompt : JsValue) :
    List ProviderCall × Except String JsValue :=
  ([.cfRun prompt],
    match cloudflareTry (env.cfAI prompt) with
    | .ok v => .ok v
    | .error _ => .error "Failed to generate response with Cloudflare AI.")

/-- Evaluation of result.choices[0].message.content on a parsed body. -/
def openAIExtract (result : Json) : Except String JsValue := do
  let choices ← jsGetField (some result) "choices"
  let c0 ← jsIndex choices 0
  let message ← jsGetField c0 "message"
  jsGetField message "content"

/-- Body of the try block of generateWithOpenAI as a function of the awaited
fetch outcome: throw on a non-ok status with the status and raw body text,
else parse the body and extract the generated text. -/
def openAITry (outcome : FetchOutcome) : Except String JsValue :=
  match outcome with
  | .networkError em => .error em
  | .httpResponse status bodyText bodyJson =>
      if httpOk status then
        match bodyJson with
        | .error em => .error em
        | .ok result => openAIExtract result
      else
        .error ("OpenAI API responded with status " ++ toString status ++ ": " ++ bodyText)

/-- The method generateWithOpenAI: it issues one fetch call and its catch
replaces any failure with a fixed diagnostic. -/
def generateWithOpenAI (env : BackendEnv) (prompt : JsValue) :
    List ProviderCall × Except String JsValue :=
  ([.openaiPost prompt],
    match openAITry (env.openaiFetch prompt) with
    | .ok v => .ok v
    | .error _ => .error "Failed to generate response with OpenAI.")

/-- Evaluation of result.candidates[0].content.parts[0].text. -/
def geminiExtract (result : Json) : Except String JsValue := do
  let candidates ← jsGetField (some result) "candidates"
  let c0 ← jsIndex candidates 0
  let content ← jsGetField c0 "content"
  let parts ← jsGetField content "parts"
  let p0 ← jsIndex parts 0
  jsGetField p0 "text"

/-- Body of the try block of generateWithGemini as a function of the awaited
fetch outcome. -/
def geminiTry (outcome : FetchOutcome) : Except String JsValue :=
  match outcome with
  | .networkError em => .error em
  | .httpResponse status bodyText bodyJson =>
      if httpOk status then
        match bodyJson with
        | .error em => .error em
        | .ok result => geminiExtract result
      else
        .error ("Gemini API responded with status " ++ toString status ++ ": " ++ bodyText)

/-- The method generateWithGemini: it issues one fetch call and its catch
replaces any failure with a fixed diagnostic. -/
def generateWithGemini (env : BackendEnv) (prompt : JsValue) :
    List ProviderCall × Except String JsValue :=
  ([.geminiPost prompt],
    match geminiTry (env.geminiFetch prompt) with
    | .ok v => .ok v
    | .error _ => .error "Failed to generate response with Gemini.")

/-- The unsupported-agent diagnostic thrown by the default branch of the
switch in generate. -/
def unsupportedAgentMsg (agent : JsValue) : String :=
  "Unsupported agent type: " ++ jsToString agent ++
    ". Please use \x27cloudflare\x27, \x27openai\x27, or \x27gemini\x27."

/-- The router method generate: a switch on the agent value using strict
equality against the three known literals, throwing on anything else. -/
def generate (env : BackendEnv) (agent prompt : JsValue) :
    List ProviderCall × Except String JsValue :=
  match agent with
  | some (.str "cloudflare") => generateWithCloudflare env prompt
  | some (.str "openai") => generateWithOpenAI env prompt
  | some (.str "gemini") => generateWithGemini env prompt
  | _ => ([], .error (unsupportedAgentMsg agent))

/-- An inbound WebSocket frame, abstracted to the outcome of JSON.parse on its
text: either the parser throws with some message, or it yields a JSON value. -/
inductive RawMessage where
  | unparseable : String → RawMessage
  | parsed : Json → RawMessage

/-- The validation-failure content sent when agent or prompt is falsy. -/
def invalidFormatContent : String :=
  "Invalid message format. Please provide both \"agent\" and \"prompt\"."

/-- The content built by the catch handler of the message listener. -/
def catchContent (em : String) : String :=
  "Failed to process your request: " ++ em

/-- Effects of one run of the message listener: the provider calls issued and
the frames written to the connection. -/
structure MessageEffects where
  calls : List ProviderCall
  writes : List OutboundResponse

/-- The message listener of ChatSession.fetch: parse, validate truthiness of
agent and prompt, route and generate, and write one frame; every throw is
caught and written as one error frame.  The source tests the agent first and
short-circuits, but a prompt access can only throw when the agent access
already threw (both throw exactly on a null or undefined payload), so reading
both fields before the test is equivalent. -/
def onMessage (env : BackendEnv) (msgId : String) (raw : RawMessage) : MessageEffects :=
  match raw with
  | .unparseable em =>
      { calls := []
        writes := [{ id := msgId, role := "error", content := some (.str (catchContent em)) }] }
  | .parsed payload =>
      match jsGetField (some payload) "agent" with
      | .error em =>
          { calls := []
            writes := [{ id := msgId, role := "error", content := some (.str (catchContent em)) }] }
      | .ok agent =>
          match jsGetField (some payload) "prompt" with
          | .error em =>
              { calls := []
                writes := [{ id := msgId, role := "error", content := some (.str (catchContent em)) }] }
          | .ok prompt =>
              if jsTruthy agent && jsTruthy prompt then
                match generate env agent prompt with
                | (cs, .ok v) =>
                    { calls := cs
                      writes := [{ id := msgId, role := "assistant", content := v }] }
                | (cs, .error em) =>
                    { calls := cs
                      writes := [{ id := msgId, role := "error", content := some (.str (catchContent em)) }] }
              else
                { calls := []
                  writes := [{ id := msgId, role := "error", content := some (.str invalidFormatContent) }] }

/-- Connection lifecycle state of one accepted session. -/
structure SessionState where
  closed : Bool

/-- External events delivered to an accepted session. -/
inductive SessionEvent where
  | inbound : String → RawMessage → SessionEvent
  | clientClose : SessionEvent
  | transportError : SessionEvent

/-- One step of the session: an inbound frame in the open state runs the
message listener; a close or transport error moves to the closed state; a
closed session delivers nothing. -/
def sessionStep (env : BackendEnv) (s : SessionState) (e : SessionEvent) :
    SessionState × List OutboundResponse :=
  if s.closed then (s, [])
  else
    match e with
    | .inbound msgId raw => (s, (onMessage env msgId raw).writes)
    | .clientClose => ({ closed := true }, [])
    | .transportError => ({ closed := true }, [])

/-- Folding a list of events through the session, collecting all writes. -/
def runSession (env : BackendEnv) : SessionState → List SessionEvent → SessionState × List OutboundResponse
  | s, [] => (s, [])
  | s, e :: es =>
      let step := sessionStep env s e
      let rest := runSession env step.1 es
      (rest.1, step.2 ++ rest.2)

/-- The wire encoding of an outbound response: the object JSON.stringify
produces from the literal at the send site, with an undefined content field
omitted. -/
def encodeResponse (r : OutboundResponse) : Json :=
  .obj ([("id", Json.str r.id), ("role", Json.str r.role)] ++
    (match r.content with
     | some c => [("content", c)]
     | none => []))

/-- Field lookup on a decoded wire object. -/
def jsonField (j : Json) (k : String) : JsValue :=
  match j with
  | .obj fs => lookupField fs k
  | _ => none

/-- Fields recovered by decoding one outbound wire object. -/
structure DecodedResponse where
  id : JsValue
  role : JsValue
  content : JsValue

/-- Modelled from the spec: the repository contains no decoder for the
outbound wire shape (the frontend consumes it through a library), so the
codec direction decode(raw) is taken from the spec: read the id, role and
content fields of the parsed wire object. -/
def decodeResponse (wire : Json) : DecodedResponse :=
  { id := jsonField wire "id"
    role := jsonField wire "role"
    content := jsonField wire "content" }

/-- Concrete environment whose Cloudflare backend resolves with a body
carrying a response field. -/
def cfHappyEnv : BackendEnv :=
  { cfAI := fun _ => .returns (some (.obj [("response", .str "hello")]))
    openaiFetch := fun _ => .networkError "unused"
    geminiFetch := fun _ => .networkError "unused" }

/-- Concrete environment whose Cloudflare backend resolves with an empty
object: a structurally malformed body missing the expected response field. -/
def cfMalformedEnv : BackendEnv :=
  { cfAI := fun _ => .returns (some (.obj []))
    openaiFetch := fun _ => .networkError "unused"
    geminiFetch := fun _ => .networkError "unused" }

/-- Concrete environment whose OpenAI backend answers HTTP 500 with a given
raw body text. -/
def oaiStatusEnv (body : String) : BackendEnv :=
  { cfAI := fun _ => .throws "boom"
    openaiFetch := fun _ => .httpResponse 500 body (.error "parse")
    geminiFetch := fun _ => .networkError "net" }

/-- Relation between two AI.run outcomes that differ only in the rejection
diagnostics of a failed call. -/
inductive CallBodyEquiv : CallResult → CallResult → Prop where
  | throws : ∀ e1 e2, CallBodyEquiv (.throws e1) (.throws e2)
  | same : ∀ c, CallBodyEquiv c c

/-- Relation between two fetch outcomes that differ only in the body of a
non-success response or in the rejection diagnostics of a transport error. -/
inductive FetchBodyEquiv : FetchOutcome → FetchOutcome → Prop where
  | network : ∀ e1 e2, FetchBodyEquiv (.networkError e1) (.networkError e2)
  | failStatus : ∀ status b1 b2 j1 j2, httpOk status = false →
      FetchBodyEquiv (.httpResponse status b1 j1) (.httpResponse status b2 j2)
  | same : ∀ f, FetchBodyEquiv f f

/-- The single write produced once a message has passed validation and been
handed to the router: the assistant write on success, the catch write on a
thrown routing or backend failure. -/
def routedWrite (env : BackendEnv) (msgId : String) (agent prompt : JsValue) : OutboundResponse :=
  match (generate env agent prompt).2 with
  | .ok v => { id := msgId, role := "assistant", content := v }
  | .error em => { id := msgId, role := "error", content := some (.str (catchContent em)) }

/-- Truthiness of a non-empty string value. -/
theorem jsTruthy_str (s : String) (h : s ≠ "") : jsTruthy (some (.str s)) = true := by
  simp [jsTruthy, Json.truthy, h]

/-- The switch in generate falls to the default branch on any string outside
the three known literals. -/
theorem generate_str_unsupported (env : BackendEnv) (prompt : JsValue) (a : String)
    (h1 : a ≠ "cloudflare") (h2 : a ≠ "openai") (h3 : a ≠ "gemini") :
    generate env (some (.str a)) prompt = ([], .error (unsupportedAgentMsg (some (.str a)))) := by
  unfold generate
  split
  all_goals simp_all

/-- C1: every inbound message delivered to an open session produces exactly
one outbound write, whose role is assistant exactly when the payload parsed,
both fields were truthy and the routed backend call succeeded, and error on
every failure path. -/
theorem onMessage_single_write (env : BackendEnv) (msgId : String) (raw : RawMessage) :
    ∃ r, (onMessage env msgId raw).writes = [r] ∧
      (r.role = "assistant" ∨ r.role = "error") ∧
      (r.role = "assistant" ↔ ∃ payload agent prompt v, raw = .parsed payload ∧
        jsGetField (some payload) "agent" = .ok agent ∧
        jsGetField (some payload) "prompt" = .ok prompt ∧
        jsTruthy agent = true ∧ jsTruthy prompt = true ∧
        (generate env agent prompt).2 = .ok v ∧ r.content = v) := by
  cases raw with
  | unparseable em =>
      refine ⟨_, rfl, Or.inr rfl, iff_of_false (by simp) ?_⟩
      rintro ⟨payload, agent, prompt, v, hp, -⟩
      exact RawMessage.noConfusion hp
  | parsed payload =>
      cases hA : jsGetField (some payload) "agent" with
      | error em =>
          refine ⟨{ id := msgId, role := "error", content := some (.str (catchContent em)) },
            by simp [onMessage, hA], Or.inr rfl, iff_of_false (by simp) ?_⟩
          rintro ⟨p2, a2, pr2, v2, hp, hga, -⟩
          injection hp with hp
          subst hp
          rw [hA] at hga
          exact Except.noConfusion hga
      | ok agent =>
          cases hP : jsGetField (some payload) "prompt" with
          | error em =>
              refine ⟨{ id := msgId, role := "error", content := some (.str (catchContent em)) },
                by simp [onMessage, hA, hP], Or.inr rfl, iff_of_false (by simp) ?_⟩
              rintro ⟨p2, a2, pr2, v2, hp, hga, hgp, -⟩
              injection hp with hp
              subst hp
              rw [hP] at hgp
              exact Except.noConfusion hgp
          | ok prompt =>
              by_cases hT : (jsTruthy agent && jsTruthy prompt) = true
              · rcases hG : generate env agent prompt with ⟨cs, res⟩
                cases res with
                | ok v =>
                    refine ⟨{ id := msgId, role := "assistant", content := v },
                      by simp [onMessage, hA, hP, hT, hG], Or.inl rfl, iff_of_true rfl ?_⟩
                    refine ⟨payload, agent, prompt, v, rfl, hA, hP, (Bool.and_eq_true_iff.mp hT).1,
                      (Bool.and_eq_true_iff.mp hT).2, by rw [hG], rfl⟩
                | error em =>
                    refine ⟨{ id := msgId, role := "error", content := some (.str (catchContent em)) },
                      by simp [onMessage, hA, hP, hT, hG], Or.inr rfl, iff_of_false (by simp) ?_⟩
                    rintro ⟨p2, a2, pr2, v2, hp, hga, hgp, -, -, hgen, -⟩
                    injection hp with hp
                    subst hp
                    rw [hA] at hga
                    injection hga with hga
                    subst hga
                    rw [hP] at hgp
                    injection hgp with hgp
                    subst hgp
                    rw [hG] at hgen
                    exact Except.noConfusion hgen
              · refine ⟨{ id := msgId, role := "error", content := some (.str invalidFormatContent) },
                  by simp [onMessage, hA, hP, hT], Or.inr rfl, iff_of_false (by simp) ?_⟩
                rintro ⟨p2, a2, pr2, v2, hp, hga, hgp, hta, htp, -⟩
                injection hp with hp
                subst hp
                rw [hA] at hga
                injection hga with hga
                subst hga
                rw [hP] at hgp
                injection hgp with hgp
                subst hgp
                exact hT (by rw [hta, htp]; rfl)

/-- C2: for a well-formed message naming a supported agent, when the routed
backend call succeeds with generated text t, the session writes exactly one
assistant response whose content equals t. -/
theorem success_writes_assistant_content (env : BackendEnv) (msgId : String)
    (payload : Json) (a : String) (prompt : JsValue) (t : String)
    (hA : jsGetField (some payload) "agent" = .ok (some (.str a)))
    (hSup : a = "cloudflare" ∨ a = "openai" ∨ a = "gemini")
    (hP : jsGetField (some payload) "prompt" = .ok prompt)
    (hT : jsTruthy prompt = true)
    (hG : (generate env (some (.str a)) prompt).2 = .ok (some (.str t))) :
    (onMessage env msgId (.parsed payload)).writes
      = [{ id := msgId, role := "assistant", content := some (.str t) }] := by
  have hTA : jsTruthy (some (.str a)) = true := by
    rcases hSup with rfl | rfl | rfl <;> rfl
  rcases hGen : generate env (some (.str a)) prompt with ⟨cs, res⟩
  rw [hGen] at hG
  simp only at hG
  subst hG
  simp [onMessage, hA, hP, hTA, hT, hGen]

/-- Witness for C2 at a concrete input: the Cloudflare backend resolves with
the text hello and the session writes it back as the assistant content. -/
theorem success_witness :
    (generate cfHappyEnv (some (.str "cloudflare")) (some (.str "hi"))).2 = .ok (some (.str "hello"))
      ∧ (onMessage cfHappyEnv "w2" (.parsed (.obj [("agent", .str "cloudflare"), ("prompt", .str "hi")]))).writes
          = [{ id := "w2", role := "assistant", content := some (.str "hello") }] :=
  ⟨rfl, success_writes_assistant_content cfHappyEnv "w2" _ "cloudflare" (some (.str "hi")) "hello"
    rfl (Or.inl rfl) rfl rfl rfl⟩

/-- C3: a payload missing agent, missing prompt, or with an empty prompt
yields exactly one error write with the invalid-format content, the session
stays open, and a subsequent message is processed as usual. -/
theorem invalid_format_error_and_open (env : BackendEnv) (msgId : String)
    (payload : Json) (agent prompt : JsValue)
    (hA : jsGetField (some payload) "agent" = .ok agent)
    (hP : jsGetField (some payload) "prompt" = .ok prompt)
    (hMiss : agent = none ∨ prompt = none ∨ prompt = some (.str "")) :
    (onMessage env msgId (.parsed payload)).writes
        = [{ id := msgId, role := "error", content := some (.str invalidFormatContent) }]
      ∧ (sessionStep env { closed := false } (.inbound msgId (.parsed payload))).1
          = { closed := false }
      ∧ ∀ msgId2 raw2,
          (runSession env { closed := false }
              [.inbound msgId (.parsed payload), .inbound msgId2 raw2]).2
            = { id := msgId, role := "error", content := some (.str invalidFormatContent) }
                :: (onMessage env msgId2 raw2).writes := by
  have hF : (jsTruthy agent && jsTruthy prompt) = false := by
    rcases hMiss with rfl | rfl | rfl
    · simp [jsTruthy]
    · simp [jsTruthy]
    · simp [jsTruthy, Json.truthy]
  have hW : (onMessage env msgId (.parsed payload)).writes
      = [{ id := msgId, role := "error", content := some (.str invalidFormatContent) }] := by
    simp [onMessage, hA, hP, hF]
  refine ⟨hW, rfl, ?_⟩
  intro msgId2 raw2
  simp [runSession, sessionStep, hW]

/-- Witness for C3 at a concrete input: a payload with no agent field draws
the invalid-format error and a following valid message still succeeds. -/
theorem invalid_format_witness :
    (onMessage cfHappyEnv "w3" (.parsed (.obj [("prompt", .str "hi")]))).writes
        = [{ id := "w3", role := "error", content := some (.str invalidFormatContent) }]
      ∧ (runSession cfHappyEnv { closed := false }
            [.inbound "w3" (.parsed (.obj [("prompt", .str "hi")])),
             .inbound "w4" (.parsed (.obj [("agent", .str "cloudflare"), ("prompt", .str "hi")]))]).2
          = [{ id := "w3", role := "error", content := some (.str invalidFormatContent) },
             { id := "w4", role := "assistant", content := some (.str "hello") }] := by
  have h := invalid_format_error_and_open cfHappyEnv "w3" (.obj [("prompt", .str "hi")])
    none (some (.str "hi")) rfl rfl (Or.inl rfl)
  refine ⟨h.1, ?_⟩
  rw [h.2.2 "w4" (.parsed (.obj [("agent", .str "cloudflare"), ("prompt", .str "hi")]))]
  rfl

/-- C4: a truthy string agent outside the three known literals passes the
codec check, the router stage fails carrying the offending value, and the one
error write mentions that value in its content. -/
theorem unsupported_agent_error_names_value (env : BackendEnv) (msgId : String)
    (payload : Json) (a : String) (prompt : JsValue)
    (hA : jsGetField (some payload) "agent" = .ok (some (.str a)))
    (hUnsup : ¬(a = "cloudflare" ∨ a = "openai" ∨ a = "gemini"))
    (hNE : a ≠ "")
    (hP : jsGetField (some payload) "prompt" = .ok prompt)
    (hT : jsTruthy prompt = true) :
    (generate env (some (.str a)) prompt).2 = .error (unsupportedAgentMsg (some (.str a)))
      ∧ (onMessage env msgId (.parsed payload)).writes
          = [{ id := msgId, role := "error",
               content := some (.str (catchContent (unsupportedAgentMsg (some (.str a))))) }]
      ∧ ∃ pre post, catchContent (unsupportedAgentMsg (some (.str a))) = pre ++ a ++ post := by
  push_neg at hUnsup
  obtain ⟨h1, h2, h3⟩ := hUnsup
  have hGen := generate_str_unsupported env prompt a h1 h2 h3
  have hTA := jsTruthy_str a hNE
  refine ⟨by rw [hGen], by simp [onMessage, hA, hP, hTA, hT, hGen], ?_⟩
  refine ⟨"Failed to process your request: Unsupported agent type: ",
    ". Please use \x27cloudflare\x27, \x27openai\x27, or \x27gemini\x27.", ?_⟩
  simp [catchContent, unsupportedAgentMsg, jsToString, jsonToString, String.append_assoc]
  rw [← String.append_assoc]
  rfl

/-- Witness for C4 at the concrete agent value bogus. -/
theorem unsupported_agent_witness :
    (onMessage cfHappyEnv "w5" (.parsed (.obj [("agent", .str "bogus"), ("prompt", .str "hi")]))).writes
        = [{ id := "w5", role := "error",
             content := some (.str (catchContent (unsupportedAgentMsg (some (.str "bogus"))))) }]
      ∧ ∃ pre post, catchContent (unsupportedAgentMsg (some (.str "bogus"))) = pre ++ "bogus" ++ post := by
  have h := unsupported_agent_error_names_value cfHappyEnv "w5"
    (.obj [("agent", .str "bogus"), ("prompt", .str "hi")]) "bogus" (some (.str "hi"))
    rfl (by simp) (by simp) rfl rfl
  exact ⟨h.2.1, h.2.2⟩

/-- C5: at the failing input, the cloudflare backend resolving with an empty
object (a structurally malformed body missing the response field) makes the
session issue exactly one provider call and then write a response with role
assistant and an undefined content, not the error response the claim
requires for every malformed-response-body backend failure. -/
theorem backend_malformed_body_not_error_write :
    onMessage cfMalformedEnv "m1" (.parsed (.obj [("agent", .str "cloudflare"), ("prompt", .str "hi")]))
      = { calls := [.cfRun (some (.str "hi"))],
          writes := [{ id := "m1", role := "assistant", content := none }] } := rfl

/-- C8: at the failing input, the Cloudflare adapter applied to a resolved
body that is an empty object returns the undefined value as its success
result instead of failing with a typed MalformedResponseBody error. -/
theorem cloudflare_adapter_returns_missing_value :
    generateWithCloudflare cfMalformedEnv (some (.str "hi"))
      = ([.cfRun (some (.str "hi"))], .ok none) := rfl

/-- The catch wrapper of the Cloudflare adapter produces identical results on
outcomes differing only in rejection diagnostics. -/
theorem cloudflare_catch_independent (c1 c2 : CallResult) (h : CallBodyEquiv c1 c2) :
    (match cloudflareTry c1 with
      | .ok v => (Except.ok v : Except String JsValue)
      | .error _ => .error "Failed to generate response with Cloudflare AI.")
    = (match cloudflareTry c2 with
      | .ok v => .ok v
      | .error _ => .error "Failed to generate response with Cloudflare AI.") := by
  cases h with
  | throws e1 e2 => rfl
  | same c => rfl

/-- The catch wrapper of the OpenAI adapter produces identical results on
outcomes differing only in a non-success body or rejection diagnostics. -/
theorem openai_catch_independent (f1 f2 : FetchOutcome) (h : FetchBodyEquiv f1 f2) :
    (match openAITry f1 with
      | .ok v => (Except.ok v : Except String JsValue)
      | .error _ => .error "Failed to generate response with OpenAI.")
    = (match openAITry f2 with
      | .ok v => .ok v
      | .error _ => .error "Failed to generate response with OpenAI.") := by
  cases h with
  | network e1 e2 => rfl
  | failStatus status b1 b2 j1 j2 hbad => simp [openAITry, hbad]
  | same f => rfl

/-- The catch wrapper of the Gemini adapter produces identical results on
outcomes differing only in a non-success body or rejection diagnostics. -/
theorem gemini_catch_independent (f1 f2 : FetchOutcome) (h : FetchBodyEquiv f1 f2) :
    (match geminiTry f1 with
      | .ok v => (Except.ok v : Except String JsValue)
      | .error _ => .error "Failed to generate response with Gemini.")
    = (match geminiTry f2 with
      | .ok v => .ok v
      | .error _ => .error "Failed to generate response with Gemini.") := by
  cases h with
  | network e1 e2 => rfl
  | failStatus status b1 b2 j1 j2 hbad => simp [geminiTry, hbad]
  | same f => rfl

/-- Routing and generation are unchanged when provider failure bodies
change. -/
theorem generate_body_independent (e1 e2 : BackendEnv)
    (hcf : ∀ p, CallBodyEquiv (e1.cfAI p) (e2.cfAI p))
    (hoa : ∀ p, FetchBodyEquiv (e1.openaiFetch p) (e2.openaiFetch p))
    (hgm : ∀ p, FetchBodyEquiv (e1.geminiFetch p) (e2.geminiFetch p))
    (agent prompt : JsValue) :
    generate e1 agent prompt = generate e2 agent prompt := by
  rcases agent with _ | j
  · rfl
  rcases j with _ | b | n | s | xs | fs
  · rfl
  · rfl
  · rfl
  · by_cases h1 : s = "cloudflare"
    · subst h1
      show generateWithCloudflare e1 prompt = generateWithCloudflare e2 prompt
      unfold generateWithCloudflare
      rw [cloudflare_catch_independent _ _ (hcf prompt)]
    · by_cases h2 : s = "openai"
      · subst h2
        show generateWithOpenAI e1 prompt = generateWithOpenAI e2 prompt
        unfold generateWithOpenAI
        rw [openai_catch_independent _ _ (hoa prompt)]
      · by_cases h3 : s = "gemini"
        · subst h3
          show generateWithGemini e1 prompt = generateWithGemini e2 prompt
          unfold generateWithGemini
          rw [gemini_catch_independent _ _ (hgm prompt)]
        · rw [generate_str_unsupported e1 prompt s h1 h2 h3,
            generate_str_unsupported e2 prompt s h1 h2 h3]
  · rfl
  · rfl

/-- C7: two runs whose provider outcomes differ only in the body of a
non-success response (or in swallowed rejection diagnostics) produce exactly
the same client-visible writes, so the raw provider error body never reaches
the client. -/
theorem error_content_body_independent (e1 e2 : BackendEnv)
    (hcf : ∀ p, CallBodyEquiv (e1.cfAI p) (e2.cfAI p))
    (hoa : ∀ p, FetchBodyEquiv (e1.openaiFetch p) (e2.openaiFetch p))
    (hgm : ∀ p, FetchBodyEquiv (e1.geminiFetch p) (e2.geminiFetch p))
    (msgId : String) (raw : RawMessage) :
    (onMessage e1 msgId raw).writes = (onMessage e2 msgId raw).writes := by
  cases raw with
  | unparseable em => rfl
  | parsed payload =>
      cases hA : jsGetField (some payload) "agent" with
      | error em => simp [onMessage, hA]
      | ok agent =>
          cases hP : jsGetField (some payload) "prompt" with
          | error em => simp [onMessage, hA, hP]
          | ok prompt =>
              by_cases hT : (jsTruthy agent && jsTruthy prompt) = true
              · rcases hG1 : generate e1 agent prompt with ⟨cs1, res1⟩
                have hG2 : generate e2 agent prompt = (cs1, res1) := by
                  rw [← generate_body_independent e1 e2 hcf hoa hgm agent prompt, hG1]
                cases res1 <;> simp [onMessage, hA, hP, hT, hG1, hG2]
              · simp only [Bool.not_eq_true] at hT
                simp [onMessage, hA, hP, hT]

/-- Witness for C7: two HTTP 500 responses with different secret bodies give
the same client-visible writes. -/
theorem error_content_body_independent_witness :
    (onMessage (oaiStatusEnv "secret-body-A") "w6"
        (.parsed (.obj [("agent", .str "openai"), ("prompt", .str "hi")]))).writes
      = (onMessage (oaiStatusEnv "secret-body-B") "w6"
        (.parsed (.obj [("agent", .str "openai"), ("prompt", .str "hi")]))).writes :=
  error_content_body_independent (oaiStatusEnv "secret-body-A") (oaiStatusEnv "secret-body-B")
    (fun _ => CallBodyEquiv.same _)
    (fun _ => FetchBodyEquiv.failStatus 500 "secret-body-A" "secret-body-B" (.error "parse") (.error "parse") rfl)
    (fun _ => FetchBodyEquiv.same _)
    "w6" (.parsed (.obj [("agent", .str "openai"), ("prompt", .str "hi")]))

/-- C9: decoding the encoded wire form of a canonical outbound response
recovers its role and content unchanged. -/
theorem decode_encode_roundtrip (r : OutboundResponse)
    (_hRole : r.role = "assistant" ∨ r.role = "error")
    (s : String) (hContent : r.content = some (.str s)) :
    (decodeResponse (encodeResponse r)).role = some (.str r.role)
      ∧ (decodeResponse (encodeResponse r)).content = r.content := by
  constructor <;>
    simp [decodeResponse, encodeResponse, jsonField, lookupField, hContent, List.find?]

/-- Witness for C9 at a concrete canonical response. -/
theorem decode_encode_roundtrip_witness :
    (decodeResponse (encodeResponse { id := "w7", role := "assistant", content := some (.str "hello") })).role
        = some (.str "assistant")
      ∧ (decodeResponse (encodeResponse { id := "w7", role := "assistant", content := some (.str "hello") })).content
        = some (.str "hello") :=
  decode_encode_roundtrip { id := "w7", role := "assistant", content := some (.str "hello") }
    (Or.inl rfl) "hello" rfl

/-- C10: the inbound validation depends only on the truthiness of the two
accessed fields: truthy values of any JSON shape are forwarded to routing and
the backend, and a falsy agent or prompt draws the invalid-format error. -/
theorem validation_is_truthiness_only (env : BackendEnv) (msgId : String)
    (payload : Json) (agent prompt : JsValue)
    (hA : jsGetField (some payload) "agent" = .ok agent)
    (hP : jsGetField (some payload) "prompt" = .ok prompt) :
    ((jsTruthy agent && jsTruthy prompt) = true →
        onMessage env msgId (.parsed payload)
          = { calls := (generate env agent prompt).1
              writes := [routedWrite env msgId agent prompt] })
      ∧ ((jsTruthy agent && jsTruthy prompt) = false →
        onMessage env msgId (.parsed payload)
          = { calls := []
              writes := [{ id := msgId, role := "error", content := some (.str invalidFormatContent) }] }) := by
  constructor <;> intro hT
  · rcases hG : generate env agent prompt with ⟨cs, res⟩
    cases res <;> simp [onMessage, hA, hP, hT, hG, routedWrite]
  · simp [onMessage, hA, hP, hT]

/-- Witness for C10: a numeric agent with an empty-array prompt passes
validation and reaches the router, while a numeric zero prompt is rejected
as invalid format. -/
theorem validation_is_truthiness_only_witness :
    (onMessage cfHappyEnv "w8" (.parsed (.obj [("agent", .num 7), ("prompt", .arr [])]))).writes
        = [{ id := "w8", role := "error",
             content := some (.str "Failed to process your request: Unsupported agent type: 7. Please use \x27cloudflare\x27, \x27openai\x27, or \x27gemini\x27.") }]
      ∧ onMessage cfHappyEnv "w9" (.parsed (.obj [("agent", .str "cloudflare"), ("prompt", .num 0)]))
        = { calls := []
            writes := [{ id := "w9", role := "error", content := some (.str invalidFormatContent) }] } := by
  constructor
  · have h := (validation_is_truthiness_only cfHappyEnv "w8"
      (.obj [("agent", .num 7), ("prompt", .arr [])]) (some (.num 7)) (some (.arr []))
      rfl rfl).1 rfl
    rw [h]
    simp [routedWrite, generate, unsupportedAgentMsg, jsToString, jsonToString, catchContent]
    rfl
  · exact (validation_is_truthiness_only cfHappyEnv "w9"
      (.obj [("agent", .str "cloudflare"), ("prompt", .num 0)]) (some (.str "cloudflare")) (some (.num 0))
      rfl rfl).2 rfl
